import Mathlib

/-!
Shallow embedding of the application-layer dispatch and Modbus decoding
of the `the_wire` packet sniffer (crate `sniffer_parser`).

Conventions of the embedding:
* Rust `u8` / `u16` values are `Nat` (no arithmetic in the embedded code
  can overflow these widths on in-range inputs, so no masking is needed).
* Rust byte slices `&[u8]` are `List Nat`.
* `Result<T, E>` is `Except E T`.
* `IpAddr` is opaque in all the embedded code (only carried along and
  compared for equality), so it is modelled as `Nat`.
-/

namespace TheWire

/-- Model of `std::net::IpAddr`: opaque, only equality is used. -/
abbrev IpAddr := Nat

/-- Embedding of `u16::from_le_bytes` applied to a 2-byte slice
(`payload[payload.len() - 2..].try_into().unwrap()` in the source always
receives exactly 2 bytes). -/
def u16_from_le_bytes (bs : List Nat) : Nat :=
  bs.getD 0 0 + 256 * bs.getD 1 0

/-- Embedding of `u16::from_be_bytes` applied to a 2-byte slice. -/
def u16_from_be_bytes (bs : List Nat) : Nat :=
  256 * bs.getD 0 0 + bs.getD 1 0

/-- Embedding of `enum ModbusError` from
`src/sniffer_parser/src/application/modbus.rs`. -/
inductive ModbusError where
  | InvalidLength : ModbusError
  | InvalidFunctionCode : ModbusError
  | InvalidCRC : ModbusError
deriving DecidableEq, Repr

/-- Embedding of `struct ModbusPacket` from
`src/sniffer_parser/src/application/modbus.rs`. -/
structure ModbusPacket where
  address : Nat
  function_code : Nat
  data : List Nat
  crc : Option Nat
deriving DecidableEq, Repr

/-- Embedding of `impl Parse for ModbusPacket`, `fn parse` from
`src/sniffer_parser/src/application/modbus.rs` (lines 56-86). -/
def ModbusPacket.parse (payload : List Nat) : Except ModbusError ModbusPacket :=
  if payload.length < 4 then
    .error .InvalidLength
  else
    let address := payload.getD 0 0
    let function_code := payload.getD 1 0
    if function_code = 0 ∨ function_code > 127 then
      .error .InvalidFunctionCode
    else
      let data_len := payload.length - 4
      let data := (payload.drop 2).take data_len
      let crc := u16_from_le_bytes (payload.drop (payload.length - 2))
      .ok { address := address, function_code := function_code,
            data := data, crc := some crc }

/-- Embedding of `fn parse_modbus_rtu` from
`src/sniffer_parser/src/application/modbus.rs` (lines 88-116); the source
body is a verbatim copy of `ModbusPacket::parse`. -/
def parse_modbus_rtu (payload : List Nat) : Except ModbusError ModbusPacket :=
  if payload.length < 4 then
    .error .InvalidLength
  else
    let address := payload.getD 0 0
    let function_code := payload.getD 1 0
    if function_code = 0 ∨ function_code > 127 then
      .error .InvalidFunctionCode
    else
      let data_len := payload.length - 4
      let data := (payload.drop 2).take data_len
      let crc := u16_from_le_bytes (payload.drop (payload.length - 2))
      .ok { address := address, function_code := function_code,
            data := data, crc := some crc }

/-- Embedding of `fn parse_modbus_tcp` from
`src/sniffer_parser/src/application/modbus.rs` (lines 118-145). -/
def parse_modbus_tcp (payload : List Nat) : Except ModbusError ModbusPacket :=
  if payload.length < 8 then
    .error .InvalidLength
  else
    let _transaction_id := u16_from_be_bytes ((payload.drop 0).take 2)
    let _protocol_id := u16_from_be_bytes ((payload.drop 2).take 2)
    let _length := u16_from_be_bytes ((payload.drop 4).take 2)
    let unit_id := payload.getD 6 0
    let function_code := payload.getD 7 0
    if function_code = 0 ∨ function_code > 127 then
      .error .InvalidFunctionCode
    else
      let data := payload.drop 8
      .ok { address := unit_id, function_code := function_code,
            data := data, crc := none }

/-- Embedding of `fn parse_modbus_rtu_over_tcp` from
`src/sniffer_parser/src/application/modbus.rs` (lines 147-154). -/
def parse_modbus_rtu_over_tcp (payload : List Nat) : Except ModbusError ModbusPacket :=
  if payload.length < 8 then
    .error .InvalidLength
  else
    parse_modbus_rtu (payload.drop 6)

/-- Modelled from the spec: `SerializableModbusPacket` lives in
`serializable_packet/application.rs`, which is not under `src/`; by spec §3
the serializable Modbus frame record carries the same four fields
`{unit_address, function_code, data, crc}` as the parsed frame, and the
`From` conversion applied in `handle_modbus_packet` copies them. -/
structure SerializableModbusPacket where
  address : Nat
  function_code : Nat
  data : List Nat
  crc : Option Nat
deriving DecidableEq, Repr

/-- Modelled from the spec: the `From<&ModbusPacket>` conversion used by
`handle_modbus_packet`; field-for-field copy (spec §3 Modbus Frame). -/
def SerializableModbusPacket.from (p : ModbusPacket) : SerializableModbusPacket :=
  { address := p.address, function_code := p.function_code,
    data := p.data, crc := p.crc }

/-- Embedding of `enum SerializablePacket` from
`src/sniffer_parser/src/serializable_packet/mod.rs` (lines 136-155).
The payload types of variants other than `ModbusPacket` and
`MalformedPacket` are defined in files outside `src/` and are never
inspected by the embedded code, so they are left out here. -/
inductive SerializablePacket where
  | EthernetPacket : SerializablePacket
  | ArpPacket : SerializablePacket
  | Ipv4Packet : SerializablePacket
  | Ipv6Packet : SerializablePacket
  | EchoReplyPacket : SerializablePacket
  | EchoRequestPacket : SerializablePacket
  | IcmpPacket : SerializablePacket
  | Icmpv6Packet : SerializablePacket
  | TcpPacket : SerializablePacket
  | UdpPacket : SerializablePacket
  | HttpRequestPacket : SerializablePacket
  | HttpResponsePacket : SerializablePacket
  | TlsPacket : SerializablePacket
  | DnsPacket : SerializablePacket
  | ModbusPacket : SerializableModbusPacket → SerializablePacket
  | MalformedPacket : String → SerializablePacket
  | UnknownPacket : SerializablePacket
deriving DecidableEq, Repr

/-- Embedding of `struct ParsedPacket` from
`src/sniffer_parser/src/serializable_packet/mod.rs` (lines 35-41). -/
structure ParsedPacket where
  id : Nat
  link_layer_packet : Option SerializablePacket
  network_layer_packet : Option SerializablePacket
  transport_layer_packet : Option SerializablePacket
  application_layer_packet : Option SerializablePacket
deriving DecidableEq, Repr

/-- Embedding of `ParsedPacket::set_application_layer_packet`
(`serializable_packet/mod.rs` lines 98-103). -/
def ParsedPacket.set_application_layer_packet
    (p : ParsedPacket) (a : Option SerializablePacket) : ParsedPacket :=
  { p with application_layer_packet := a }

/-- Embedding of `fn handle_modbus_packet` from
`src/sniffer_parser/src/application/modbus.rs` (lines 7-32); the `debug!`
logging calls have no effect on the state and are dropped. -/
def handle_modbus_packet (_source_ip : IpAddr) (_source_port : Nat)
    (_dest_ip : IpAddr) (_dest_port : Nat) (packet : List Nat)
    (parsed_packet : ParsedPacket) : ParsedPacket :=
  match ModbusPacket.parse packet with
  | .ok modbus_packet =>
      parsed_packet.set_application_layer_packet
        (some (.ModbusPacket (SerializableModbusPacket.from modbus_packet)))
  | .error _ =>
      parsed_packet.set_application_layer_packet
        (some (.MalformedPacket "Malformed DNS Packet"))

/-- Embedding of `mod WellKnownPorts` constant `HTTP_PORT` from
`src/sniffer_parser/src/application/mod.rs`. -/
def WellKnownPorts.HTTP_PORT : Nat := 80

/-- Embedding of `mod WellKnownPorts` constant `TLS_PORT`. -/
def WellKnownPorts.TLS_PORT : Nat := 443

/-- Embedding of `mod WellKnownPorts` constant `DNS_PORT`. -/
def WellKnownPorts.DNS_PORT : Nat := 53

/-- Embedding of `mod WellKnownPorts` constant `MODBUS_PORT`. -/
def WellKnownPorts.MODBUS_PORT : Nat := 502

/-- Embedding of `enum HttpPacketType` from
`src/sniffer_parser/src/application/mod.rs` (lines 59-62). -/
inductive HttpPacketType where
  | Request : HttpPacketType
  | Response : HttpPacketType
deriving DecidableEq, Repr

/-- Type of the `handle_http_packet` collaborator (its definition is in
`application/http.rs`, outside `src/`); the dispatcher only forwards its
arguments to it. -/
abbrev HttpHandler :=
  IpAddr → Nat → IpAddr → Nat → HttpPacketType → Bool → List Nat →
    ParsedPacket → ParsedPacket

/-- Type of the `handle_tls_packet` and `handle_dns_packet` collaborators
(defined in `application/tls.rs` and `application/dns.rs`, outside
`src/`). -/
abbrev StatelessHandler :=
  IpAddr → Nat → IpAddr → Nat → List Nat → ParsedPacket → ParsedPacket

/-- Embedding of `fn handle_application_protocol` from
`src/sniffer_parser/src/application/mod.rs` (lines 65-120). The Rust
`match (source_port, dest_port)` with or-patterns and first-match
semantics becomes an if-else chain in source order; the handlers for
HTTP, TLS and DNS, whose code is outside `src/`, are taken as
arguments. -/
def handle_application_protocol
    (handle_http_packet : HttpHandler)
    (handle_tls_packet : StatelessHandler)
    (handle_dns_packet : StatelessHandler)
    (source_ip : IpAddr) (source_port : Nat)
    (dest_ip : IpAddr) (dest_port : Nat)
    (is_fin : Bool) (packet : List Nat)
    (parsed_packet : ParsedPacket) : ParsedPacket :=
  if source_port = WellKnownPorts.HTTP_PORT ∨ dest_port = WellKnownPorts.HTTP_PORT then
    let http_type : HttpPacketType :=
      if dest_port = WellKnownPorts.HTTP_PORT then .Request else .Response
    handle_http_packet source_ip source_port dest_ip dest_port http_type
      is_fin packet parsed_packet
  else if source_port = WellKnownPorts.TLS_PORT ∨ dest_port = WellKnownPorts.TLS_PORT then
    handle_tls_packet source_ip source_port dest_ip dest_port packet parsed_packet
  else if source_port = WellKnownPorts.DNS_PORT ∨ dest_port = WellKnownPorts.DNS_PORT then
    handle_dns_packet source_ip source_port dest_ip dest_port packet parsed_packet
  else if source_port = WellKnownPorts.MODBUS_PORT ∨ dest_port = WellKnownPorts.MODBUS_PORT then
    handle_modbus_packet source_ip source_port dest_ip dest_port packet parsed_packet
  else
    parsed_packet

/-- The protocol families the dispatcher distinguishes (spec §9:
`enum Protocol { Http, Tls, Dns, Modbus, None }`, with absence modelled
by `Option`). -/
inductive AppProtocol where
  | http : AppProtocol
  | tls : AppProtocol
  | dns : AppProtocol
  | modbus : AppProtocol
deriving DecidableEq, Repr

/-- The well-known port of each protocol family (spec §4.1: 80 = HTTP,
443 = TLS, 53 = DNS, 502 = Modbus). -/
def AppProtocol.wellKnownPort : AppProtocol → Nat
  | .http => 80
  | .tls => 443
  | .dns => 53
  | .modbus => 502

/-- Spec-side classifier, written from the words of the claim: the
families are evaluated in the fixed order HTTP, TLS, DNS, Modbus; a
family matches when either port equals its well-known port; first match
wins; no match yields `none`. -/
def classifySpec (source_port dest_port : Nat) : Option AppProtocol :=
  [AppProtocol.http, AppProtocol.tls, AppProtocol.dns, AppProtocol.modbus].find?
    (fun p => source_port == p.wellKnownPort || dest_port == p.wellKnownPort)

/-- Flow key of the reassembly stores: the `HashMap` key type
`((IpAddr, u16), (IpAddr, u16))` of `ACTIVE_HTTP_PARSERS` /
`ACTIVE_TLS_PARSERS` (`application/mod.rs` lines 19-26). -/
abbrev FlowKey := (IpAddr × Nat) × (IpAddr × Nat)

/-- A reassembly store: the `HashMap<((IpAddr, u16), (IpAddr, u16)), Vec<u8>>`
behind `ACTIVE_HTTP_PARSERS` / `ACTIVE_TLS_PARSERS`, modelled as a map
from flow key to the optional accumulated buffer. -/
abbrev ReassemblyStore := FlowKey → Option (List Nat)

/-- Modelled from the spec: the `append` operation of the reassembly
store (spec §4.2); its implementation sits in `application/http.rs` /
`application/tls.rs`, outside `src/`. It creates an empty entry if the
key is absent, then appends the bytes to the entry's buffer. -/
def ReassemblyStore.append (s : ReassemblyStore) (k : FlowKey)
    (bytes : List Nat) : ReassemblyStore :=
  fun k' => if k' = k then some ((s k).getD [] ++ bytes) else s k'

/-- Modelled from the spec: the `snapshot` operation of the reassembly
store (spec §4.2): the current buffer contents, without consuming them. -/
def ReassemblyStore.snapshot (s : ReassemblyStore) (k : FlowKey) : List Nat :=
  (s k).getD []

/-- Appending a sequence of segments for one flow key, one after the
other, with no intervening clear (spec §8, first property). -/
def ReassemblyStore.appendAll (s : ReassemblyStore) (k : FlowKey)
    (segs : List (List Nat)) : ReassemblyStore :=
  segs.foldl (fun st seg => st.append k seg) s

/-- Let-free unfolding of `ModbusPacket.parse` (definitional). -/
lemma ModbusPacket.parse_eq (payload : List Nat) :
    ModbusPacket.parse payload =
      if payload.length < 4 then .error .InvalidLength
      else if payload.getD 1 0 = 0 ∨ payload.getD 1 0 > 127 then
        .error .InvalidFunctionCode
      else .ok
        { address := payload.getD 0 0
          function_code := payload.getD 1 0
          data := (payload.drop 2).take (payload.length - 4)
          crc := some (u16_from_le_bytes (payload.drop (payload.length - 2))) } := rfl

/-- Let-free unfolding of `parse_modbus_rtu` (definitional). -/
lemma parse_modbus_rtu_eq (payload : List Nat) :
    parse_modbus_rtu payload =
      if payload.length < 4 then .error .InvalidLength
      else if payload.getD 1 0 = 0 ∨ payload.getD 1 0 > 127 then
        .error .InvalidFunctionCode
      else .ok
        { address := payload.getD 0 0
          function_code := payload.getD 1 0
          data := (payload.drop 2).take (payload.length - 4)
          crc := some (u16_from_le_bytes (payload.drop (payload.length - 2))) } := rfl

/-- Let-free unfolding of `parse_modbus_tcp` (definitional; the unused
MBAP header reads disappear). -/
lemma parse_modbus_tcp_eq (payload : List Nat) :
    parse_modbus_tcp payload =
      if payload.length < 8 then .error .InvalidLength
      else if payload.getD 7 0 = 0 ∨ payload.getD 7 0 > 127 then
        .error .InvalidFunctionCode
      else .ok
        { address := payload.getD 6 0
          function_code := payload.getD 7 0
          data := payload.drop 8
          crc := none } := rfl

/-- Let-free unfolding of `handle_modbus_packet` (definitional). -/
lemma handle_modbus_packet_eq (sip : IpAddr) (sp : Nat) (dip : IpAddr)
    (dp : Nat) (packet : List Nat) (pp : ParsedPacket) :
    handle_modbus_packet sip sp dip dp packet pp =
      match ModbusPacket.parse packet with
      | .ok m => pp.set_application_layer_packet
          (some (.ModbusPacket (SerializableModbusPacket.from m)))
      | .error _ => pp.set_application_layer_packet
          (some (.MalformedPacket "Malformed DNS Packet")) := rfl

/-- C2: for every payload of at least 4 bytes whose second byte (the
function code) lies in 1..=127, the RTU-style Modbus parse (both the
`ModbusPacket::parse` entry point and `parse_modbus_rtu`) succeeds and
returns address = byte 0, function code = byte 1, data = the bytes
strictly between index 2 and the last two bytes, and crc = some of the
little-endian u16 formed from the trailing 2 bytes. -/
theorem claim_C2_rtu_parse_ok (payload : List Nat)
    (hlen : 4 ≤ payload.length)
    (hfc0 : payload.getD 1 0 ≠ 0) (hfc7 : payload.getD 1 0 ≤ 127) :
    parse_modbus_rtu payload = .ok
      { address := payload.getD 0 0
        function_code := payload.getD 1 0
        data := (payload.take (payload.length - 2)).drop 2
        crc := some (payload.getD (payload.length - 2) 0 +
                     256 * payload.getD (payload.length - 1) 0) } ∧
    ModbusPacket.parse payload = .ok
      { address := payload.getD 0 0
        function_code := payload.getD 1 0
        data := (payload.take (payload.length - 2)).drop 2
        crc := some (payload.getD (payload.length - 2) 0 +
                     256 * payload.getD (payload.length - 1) 0) } := by
  have hdata : (payload.take (payload.length - 2)).drop 2 =
      (payload.drop 2).take (payload.length - 4) := by
    rw [List.drop_take, Nat.sub_sub]
  have h1 : payload.length - 2 + 1 = payload.length - 1 := by omega
  have hcrc : u16_from_le_bytes (payload.drop (payload.length - 2)) =
      payload.getD (payload.length - 2) 0 +
        256 * payload.getD (payload.length - 1) 0 := by
    simp [u16_from_le_bytes, List.getD_eq_getElem?_getD, List.getElem?_drop, h1]
  have hmain : parse_modbus_rtu payload = .ok
      { address := payload.getD 0 0
        function_code := payload.getD 1 0
        data := (payload.take (payload.length - 2)).drop 2
        crc := some (payload.getD (payload.length - 2) 0 +
                     256 * payload.getD (payload.length - 1) 0) } := by
    rw [hdata, ← hcrc, parse_modbus_rtu_eq,
      if_neg (show ¬ payload.length < 4 by omega),
      if_neg (show ¬ (payload.getD 1 0 = 0 ∨ payload.getD 1 0 > 127) from
        by push_neg; exact ⟨hfc0, by omega⟩)]
  exact ⟨hmain, hmain⟩

/-- Witness for C2 at the spec's concrete example: the 6-byte payload
`[0x01, 0x03, 0xAA, 0xBB, 0xCC, 0xDD]` decodes to address 1, function
code 3, data `[0xAA, 0xBB]`, crc `0xDDCC`. -/
theorem claim_C2_rtu_parse_ok_witness :
    parse_modbus_rtu [0x01, 0x03, 0xAA, 0xBB, 0xCC, 0xDD] =
      .ok { address := 1, function_code := 3,
            data := [0xAA, 0xBB], crc := some 0xDDCC } ∧
    ModbusPacket.parse [0x01, 0x03, 0xAA, 0xBB, 0xCC, 0xDD] =
      .ok { address := 1, function_code := 3,
            data := [0xAA, 0xBB], crc := some 0xDDCC } := by
  have h := claim_C2_rtu_parse_ok [0x01, 0x03, 0xAA, 0xBB, 0xCC, 0xDD]
    (by decide) (by decide) (by decide)
  exact ⟨h.1.trans (by rfl), h.2.trans (by rfl)⟩

/-- C3: the RTU-style parse fails with `InvalidLength` exactly on
payloads shorter than 4 bytes; on payloads of length at least 4 it fails
with `InvalidFunctionCode` exactly when byte 1 is 0 or above 127; and on
any parse error `handle_modbus_packet` attaches a `MalformedPacket`
record to the application-layer slot instead of raising a fault. -/
theorem claim_C3_rtu_errors (payload : List Nat) (sip : IpAddr) (sp : Nat)
    (dip : IpAddr) (dp : Nat) (pp : ParsedPacket) :
    (ModbusPacket.parse payload = .error .InvalidLength ↔ payload.length < 4) ∧
    (4 ≤ payload.length →
      (ModbusPacket.parse payload = .error .InvalidFunctionCode ↔
        (payload.getD 1 0 = 0 ∨ payload.getD 1 0 > 127))) ∧
    (∀ e, ModbusPacket.parse payload = .error e →
      handle_modbus_packet sip sp dip dp payload pp =
        pp.set_application_layer_packet
          (some (.MalformedPacket "Malformed DNS Packet"))) := by
  refine ⟨?_, ?_, ?_⟩
  · rw [ModbusPacket.parse_eq]
    by_cases h : payload.length < 4
    · simp [h]
    · rw [if_neg h]
      by_cases h2 : payload.getD 1 0 = 0 ∨ payload.getD 1 0 > 127
      · rw [if_pos h2]
        simp [h]
      · rw [if_neg h2]
        simp [h]
  · intro hlen
    rw [ModbusPacket.parse_eq, if_neg (by omega)]
    by_cases h2 : payload.getD 1 0 = 0 ∨ payload.getD 1 0 > 127
    · rw [if_pos h2]
      simpa using h2
    · rw [if_neg h2]
      simpa using h2
  · intro e he
    rw [handle_modbus_packet_eq, he]

/-- Witness for C3: a 3-byte payload gives `InvalidLength`; function code
0 and function code 128 give `InvalidFunctionCode` on 4-byte payloads;
and the malformed outcome is attached as a `MalformedPacket` record. -/
theorem claim_C3_rtu_errors_witness :
    ModbusPacket.parse [0, 0, 0] = .error .InvalidLength ∧
    ModbusPacket.parse [1, 0, 0xAA, 0xBB] = .error .InvalidFunctionCode ∧
    ModbusPacket.parse [1, 128, 0xAA, 0xBB] = .error .InvalidFunctionCode ∧
    handle_modbus_packet 0 502 1 5 [0, 0, 0]
        (ParsedPacket.mk 0 none none none none) =
      (ParsedPacket.mk 0 none none none none).set_application_layer_packet
        (some (.MalformedPacket "Malformed DNS Packet")) := by
  refine ⟨?_, ?_, ?_, ?_⟩
  · exact (claim_C3_rtu_errors [0, 0, 0] 0 502 1 5
      (ParsedPacket.mk 0 none none none none)).1.mpr (by decide)
  · exact ((claim_C3_rtu_errors [1, 0, 0xAA, 0xBB] 0 502 1 5
      (ParsedPacket.mk 0 none none none none)).2.1 (by decide)).mpr (by decide)
  · exact ((claim_C3_rtu_errors [1, 128, 0xAA, 0xBB] 0 502 1 5
      (ParsedPacket.mk 0 none none none none)).2.1 (by decide)).mpr (by decide)
  · exact (claim_C3_rtu_errors [0, 0, 0] 0 502 1 5
      (ParsedPacket.mk 0 none none none none)).2.2 .InvalidLength rfl

/-- C4: `handle_modbus_packet` is driven entirely by the generic
RTU-style entry point: `ModbusPacket.parse` agrees with
`parse_modbus_rtu` on every input, and the dispatch path is
extensionally the RTU routine applied to the raw payload, never the TCP
or RTU-over-TCP routine. -/
theorem claim_C4_dispatch_is_rtu (payload : List Nat) (sip : IpAddr)
    (sp : Nat) (dip : IpAddr) (dp : Nat) (pp : ParsedPacket) :
    ModbusPacket.parse payload = parse_modbus_rtu payload ∧
    handle_modbus_packet sip sp dip dp payload pp =
      (match parse_modbus_rtu payload with
       | .ok m => pp.set_application_layer_packet
           (some (.ModbusPacket (SerializableModbusPacket.from m)))
       | .error _ => pp.set_application_layer_packet
           (some (.MalformedPacket "Malformed DNS Packet"))) := by
  have h : ModbusPacket.parse payload = parse_modbus_rtu payload := rfl
  refine ⟨h, ?_⟩
  rw [handle_modbus_packet_eq, h]

/-- C5: `parse_modbus_tcp` rejects payloads shorter than 8 bytes with
`InvalidLength`; on payloads of at least 8 bytes whose byte 7 (the
function code) lies in 1..=127 it succeeds with address = byte 6 (the
MBAP unit id), function code = byte 7, data = all bytes from index 8
onward, and crc = none. -/
theorem claim_C5_tcp_parse (payload : List Nat) :
    (payload.length < 8 → parse_modbus_tcp payload = .error .InvalidLength) ∧
    (8 ≤ payload.length → payload.getD 7 0 ≠ 0 → payload.getD 7 0 ≤ 127 →
      parse_modbus_tcp payload = .ok
        { address := payload.getD 6 0
          function_code := payload.getD 7 0
          data := payload.drop 8
          crc := none }) := by
  constructor
  · intro h
    rw [parse_modbus_tcp_eq, if_pos h]
  · intro hlen h0 h7
    rw [parse_modbus_tcp_eq, if_neg (by omega),
      if_neg (show ¬ (payload.getD 7 0 = 0 ∨ payload.getD 7 0 > 127) from
        by push_neg; exact ⟨h0, by omega⟩)]

/-- Witness for C5 at the spec's concrete example: an 8-byte MBAP plus
function-code-only payload with unit id 7 and function code 4 decodes to
address 7, function code 4, empty data, no crc; a short payload gives
`InvalidLength`. -/
theorem claim_C5_tcp_parse_witness :
    parse_modbus_tcp [0, 1, 0, 0, 0, 2, 7, 4] =
      .ok { address := 7, function_code := 4, data := [], crc := none } ∧
    parse_modbus_tcp [0, 0, 0] = .error .InvalidLength := by
  constructor
  · exact ((claim_C5_tcp_parse [0, 1, 0, 0, 0, 2, 7, 4]).2
      (by decide) (by decide) (by decide)).trans (by rfl)
  · exact (claim_C5_tcp_parse [0, 0, 0]).1 (by decide)

/-- C6: `parse_modbus_rtu_over_tcp` rejects payloads shorter than 8
bytes with `InvalidLength`, and on payloads of at least 8 bytes it
equals `parse_modbus_rtu` applied to the payload with its first 6 bytes
removed. -/
theorem claim_C6_rtu_over_tcp (payload : List Nat) :
    (payload.length < 8 →
      parse_modbus_rtu_over_tcp payload = .error .InvalidLength) ∧
    (8 ≤ payload.length →
      parse_modbus_rtu_over_tcp payload = parse_modbus_rtu (payload.drop 6)) := by
  constructor
  · intro h
    unfold parse_modbus_rtu_over_tcp
    rw [if_pos h]
  · intro h
    unfold parse_modbus_rtu_over_tcp
    rw [if_neg (by omega)]

/-- Witness for C6: a short payload gives `InvalidLength` directly, and
an 8-byte payload, whose remainder after skipping 6 bytes has only 2
bytes, also yields `InvalidLength` via the delegated RTU routine. -/
theorem claim_C6_rtu_over_tcp_witness :
    parse_modbus_rtu_over_tcp [0, 0, 0] = .error .InvalidLength ∧
    parse_modbus_rtu_over_tcp [1, 2, 3, 4, 5, 6, 7, 8] = .error .InvalidLength := by
  constructor
  · exact (claim_C6_rtu_over_tcp [0, 0, 0]).1 (by decide)
  · exact ((claim_C6_rtu_over_tcp [1, 2, 3, 4, 5, 6, 7, 8]).2
      (by decide)).trans (by rfl)

/-- C7: no Modbus parsing routine ever returns `InvalidCRC`; a
successful RTU-style parse stores as crc the raw little-endian value of
the trailing 2 payload bytes, unchecked, and the TCP variant always
stores crc = none. -/
theorem claim_C7_no_invalid_crc (payload : List Nat) :
    ModbusPacket.parse payload ≠ .error .InvalidCRC ∧
    parse_modbus_rtu payload ≠ .error .InvalidCRC ∧
    parse_modbus_tcp payload ≠ .error .InvalidCRC ∧
    parse_modbus_rtu_over_tcp payload ≠ .error .InvalidCRC ∧
    (∀ m, parse_modbus_rtu payload = .ok m →
      m.crc = some (u16_from_le_bytes (payload.drop (payload.length - 2)))) ∧
    (∀ m, ModbusPacket.parse payload = .ok m →
      m.crc = some (u16_from_le_bytes (payload.drop (payload.length - 2)))) ∧
    (∀ m, parse_modbus_tcp payload = .ok m → m.crc = none) := by
  have hrtu : ∀ q : List Nat, parse_modbus_rtu q ≠ .error .InvalidCRC := by
    intro q h
    rw [parse_modbus_rtu_eq] at h
    split at h
    · simp at h
    · split at h <;> simp_all
  have hrtuok : ∀ m, parse_modbus_rtu payload = .ok m →
      m.crc = some (u16_from_le_bytes (payload.drop (payload.length - 2))) := by
    intro m h
    rw [parse_modbus_rtu_eq] at h
    split at h
    · simp at h
    · split at h
      · simp at h
      · simp only [Except.ok.injEq] at h
        rw [← h]
  have heq : ∀ q : List Nat, ModbusPacket.parse q = parse_modbus_rtu q :=
    fun _ => rfl
  refine ⟨?_, hrtu payload, ?_, ?_, hrtuok, ?_, ?_⟩
  · rw [heq]
    exact hrtu payload
  · intro h
    rw [parse_modbus_tcp_eq] at h
    split at h
    · simp at h
    · split at h <;> simp_all
  · intro h
    unfold parse_modbus_rtu_over_tcp at h
    split at h
    · simp at h
    · exact hrtu _ h
  · intro m h
    rw [heq] at h
    exact hrtuok m h
  · intro m h
    rw [parse_modbus_tcp_eq] at h
    split at h
    · simp at h
    · split at h
      · simp at h
      · simp only [Except.ok.injEq] at h
        rw [← h]

/-- Witness for C7: on a successful RTU parse the crc is the raw
little-endian trailing pair, and on a successful TCP parse the crc is
none; neither routine produced `InvalidCRC`. -/
theorem claim_C7_no_invalid_crc_witness :
    ModbusPacket.parse [0x01, 0x03, 0xAA, 0xBB, 0xCC, 0xDD] ≠
      .error .InvalidCRC ∧
    (ModbusPacket.mk 1 3 [0xAA, 0xBB] (some 0xDDCC)).crc =
      some (u16_from_le_bytes
        (([0x01, 0x03, 0xAA, 0xBB, 0xCC, 0xDD] : List Nat).drop
          (([0x01, 0x03, 0xAA, 0xBB, 0xCC, 0xDD] : List Nat).length - 2))) ∧
    (ModbusPacket.mk 7 4 [] none).crc = none := by
  have h := claim_C7_no_invalid_crc [0x01, 0x03, 0xAA, 0xBB, 0xCC, 0xDD]
  have h2 := claim_C7_no_invalid_crc [0, 1, 0, 0, 0, 2, 7, 4]
  exact ⟨h.1,
    h.2.2.2.2.1 (ModbusPacket.mk 1 3 [0xAA, 0xBB] (some 0xDDCC)) (by rfl),
    h2.2.2.2.2.2.2 (ModbusPacket.mk 7 4 [] none) (by rfl)⟩

/-- C10: whenever the Modbus parse fails, `handle_modbus_packet` sets
the application-layer slot to a `MalformedPacket` whose reason string is
exactly "Malformed DNS Packet" — the DNS protocol name, not a
Modbus-specific reason. -/
theorem claim_C10_malformed_label (payload : List Nat) (sip : IpAddr)
    (sp : Nat) (dip : IpAddr) (dp : Nat) (pp : ParsedPacket)
    (e : ModbusError) (he : ModbusPacket.parse payload = .error e) :
    (handle_modbus_packet sip sp dip dp payload pp).application_layer_packet =
      some (.MalformedPacket "Malformed DNS Packet") := by
  rw [handle_modbus_packet_eq, he]
  rfl

/-- Witness for C10: the empty payload fails to parse, and the attached
record carries the label "Malformed DNS Packet". -/
theorem claim_C10_malformed_label_witness :
    (handle_modbus_packet 0 502 1 5 []
        (ParsedPacket.mk 0 none none none none)).application_layer_packet =
      some (.MalformedPacket "Malformed DNS Packet") :=
  claim_C10_malformed_label [] 0 502 1 5
    (ParsedPacket.mk 0 none none none none) .InvalidLength rfl

/-- The spec-side classifier returns HTTP exactly on an HTTP port
match. -/
lemma classifySpec_http (sp dp : Nat) (h : sp = 80 ∨ dp = 80) :
    classifySpec sp dp = some .http := by
  unfold classifySpec
  rw [List.find?_cons_of_pos]
  simp [AppProtocol.wellKnownPort]
  tauto

/-- The spec-side classifier returns TLS on a TLS port match with no
HTTP match. -/
lemma classifySpec_tls (sp dp : Nat) (h80 : ¬(sp = 80 ∨ dp = 80))
    (h : sp = 443 ∨ dp = 443) :
    classifySpec sp dp = some .tls := by
  unfold classifySpec
  rw [List.find?_cons_of_neg _ (by simp [AppProtocol.wellKnownPort]; tauto),
    List.find?_cons_of_pos]
  simp [AppProtocol.wellKnownPort]
  tauto

/-- The spec-side classifier returns DNS on a DNS port match with no
HTTP or TLS match. -/
lemma classifySpec_dns (sp dp : Nat) (h80 : ¬(sp = 80 ∨ dp = 80))
    (h443 : ¬(sp = 443 ∨ dp = 443)) (h : sp = 53 ∨ dp = 53) :
    classifySpec sp dp = some .dns := by
  unfold classifySpec
  rw [List.find?_cons_of_neg _ (by simp [AppProtocol.wellKnownPort]; tauto),
    List.find?_cons_of_neg _ (by simp [AppProtocol.wellKnownPort]; tauto),
    List.find?_cons_of_pos]
  simp [AppProtocol.wellKnownPort]
  tauto

/-- The spec-side classifier returns Modbus on a Modbus port match with
no earlier match. -/
lemma classifySpec_modbus (sp dp : Nat) (h80 : ¬(sp = 80 ∨ dp = 80))
    (h443 : ¬(sp = 443 ∨ dp = 443)) (h53 : ¬(sp = 53 ∨ dp = 53))
    (h : sp = 502 ∨ dp = 502) :
    classifySpec sp dp = some .modbus := by
  unfold classifySpec
  rw [List.find?_cons_of_neg _ (by simp [AppProtocol.wellKnownPort]; tauto),
    List.find?_cons_of_neg _ (by simp [AppProtocol.wellKnownPort]; tauto),
    List.find?_cons_of_neg _ (by simp [AppProtocol.wellKnownPort]; tauto),
    List.find?_cons_of_pos]
  simp [AppProtocol.wellKnownPort]
  tauto

/-- The spec-side classifier returns nothing when neither port is
well-known. -/
lemma classifySpec_none (sp dp : Nat) (h80 : ¬(sp = 80 ∨ dp = 80))
    (h443 : ¬(sp = 443 ∨ dp = 443)) (h53 : ¬(sp = 53 ∨ dp = 53))
    (h502 : ¬(sp = 502 ∨ dp = 502)) :
    classifySpec sp dp = none := by
  unfold classifySpec
  rw [List.find?_cons_of_neg _ (by simp [AppProtocol.wellKnownPort]; tauto),
    List.find?_cons_of_neg _ (by simp [AppProtocol.wellKnownPort]; tauto),
    List.find?_cons_of_neg _ (by simp [AppProtocol.wellKnownPort]; tauto),
    List.find?_cons_of_neg _ (by simp [AppProtocol.wellKnownPort]; tauto)]
  rfl

/-- C1: the dispatcher evaluates the protocol families in the fixed
order HTTP (80), TLS (443), DNS (53), Modbus (502); a family matches
when either port equals its well-known port and the first match wins;
when neither port equals any of 80, 443, 53, 502, the parsed packet is
returned unchanged, with no application-layer record attached. The
right-hand side dispatches on the spec-side first-match classifier
`classifySpec`. -/
theorem claim_C1_dispatch_order (handle_http_packet : HttpHandler)
    (handle_tls_packet handle_dns_packet : StatelessHandler)
    (sip : IpAddr) (sp : Nat) (dip : IpAddr) (dp : Nat)
    (is_fin : Bool) (pkt : List Nat) (pp : ParsedPacket) :
    handle_application_protocol handle_http_packet handle_tls_packet
        handle_dns_packet sip sp dip dp is_fin pkt pp =
      match classifySpec sp dp with
      | some .http => handle_http_packet sip sp dip dp
          (if dp = 80 then .Request else .Response) is_fin pkt pp
      | some .tls => handle_tls_packet sip sp dip dp pkt pp
      | some .dns => handle_dns_packet sip sp dip dp pkt pp
      | some .modbus => handle_modbus_packet sip sp dip dp pkt pp
      | none => pp := by
  unfold handle_application_protocol
  simp only [WellKnownPorts.HTTP_PORT, WellKnownPorts.TLS_PORT,
    WellKnownPorts.DNS_PORT, WellKnownPorts.MODBUS_PORT]
  by_cases h80 : sp = 80 ∨ dp = 80
  · rw [if_pos h80, classifySpec_http sp dp h80]
  · rw [if_neg h80]
    by_cases h443 : sp = 443 ∨ dp = 443
    · rw [if_pos h443, classifySpec_tls sp dp h80 h443]
    · rw [if_neg h443]
      by_cases h53 : sp = 53 ∨ dp = 53
      · rw [if_pos h53, classifySpec_dns sp dp h80 h443 h53]
      · rw [if_neg h53]
        by_cases h502 : sp = 502 ∨ dp = 502
        · rw [if_pos h502, classifySpec_modbus sp dp h80 h443 h53 h502]
        · rw [if_neg h502, classifySpec_none sp dp h80 h443 h53 h502]

/-- C8: whenever either port equals 80, the dispatcher invokes the HTTP
handler, in request context exactly when the destination port equals 80
and in response context otherwise; in particular when both ports equal
80 the segment is classified as a request. -/
theorem claim_C8_http_direction (handle_http_packet : HttpHandler)
    (handle_tls_packet handle_dns_packet : StatelessHandler)
    (sip : IpAddr) (sp : Nat) (dip : IpAddr) (dp : Nat)
    (is_fin : Bool) (pkt : List Nat) (pp : ParsedPacket)
    (hport : sp = 80 ∨ dp = 80) :
    handle_application_protocol handle_http_packet handle_tls_packet
        handle_dns_packet sip sp dip dp is_fin pkt pp =
      handle_http_packet sip sp dip dp
        (if dp = 80 then .Request else .Response) is_fin pkt pp ∧
    ((if dp = 80 then HttpPacketType.Request else .Response) = .Request ↔
      dp = 80) := by
  constructor
  · unfold handle_application_protocol
    simp only [WellKnownPorts.HTTP_PORT]
    rw [if_pos hport]
  · by_cases h : dp = 80
    · simp [h]
    · simp [h]

/-- Witness for C8 at a segment with both ports equal to 80: the HTTP
handler is invoked and the context is `Request`. -/
theorem claim_C8_http_direction_witness :
    handle_application_protocol (fun _ _ _ _ _ _ _ q => q)
        (fun _ _ _ _ _ q => q) (fun _ _ _ _ _ q => q)
        0 80 1 80 false [] (ParsedPacket.mk 0 none none none none) =
      (fun _ _ _ _ _ _ _ q => q : HttpHandler) 0 80 1 80
        (if (80 : Nat) = 80 then .Request else .Response) false []
        (ParsedPacket.mk 0 none none none none) ∧
    ((if (80 : Nat) = 80 then HttpPacketType.Request else .Response) =
        .Request ↔ (80 : Nat) = 80) :=
  claim_C8_http_direction (fun _ _ _ _ _ _ _ q => q)
    (fun _ _ _ _ _ q => q) (fun _ _ _ _ _ q => q)
    0 80 1 80 false [] (ParsedPacket.mk 0 none none none none) (Or.inl rfl)

/-- Appending segments one by one extends the snapshot by their
concatenation. -/
lemma ReassemblyStore.appendAll_snapshot (s : ReassemblyStore) (k : FlowKey)
    (segs : List (List Nat)) :
    (s.appendAll k segs).snapshot k = s.snapshot k ++ segs.flatten := by
  induction segs generalizing s with
  | nil => simp [ReassemblyStore.appendAll, ReassemblyStore.snapshot]
  | cons b bs ih =>
    have hstep : s.appendAll k (b :: bs) = (s.append k b).appendAll k bs := rfl
    rw [hstep, ih]
    have hone : (s.append k b).snapshot k = s.snapshot k ++ b := by
      simp [ReassemblyStore.append, ReassemblyStore.snapshot]
    rw [hone, List.flatten_cons, List.append_assoc]

/-- Appends for one key never touch another key's entry. -/
lemma ReassemblyStore.appendAll_other (s : ReassemblyStore) (k : FlowKey)
    (segs : List (List Nat)) (k' : FlowKey) (hne : k' ≠ k) :
    s.appendAll k segs k' = s k' := by
  induction segs generalizing s with
  | nil => rfl
  | cons b bs ih =>
    have hstep : s.appendAll k (b :: bs) = (s.append k b).appendAll k bs := rfl
    rw [hstep, ih]
    simp [ReassemblyStore.append, hne]

/-- C9: appending a sequence of segments for one flow key, starting from
a store without an entry for that key and with no intervening clear,
leaves that flow's snapshot equal to the concatenation of the segments
in append order (the first append creating the empty entry), and leaves
every other flow key's entry untouched. -/
theorem claim_C9_reassembly_concat (s : ReassemblyStore) (k : FlowKey)
    (segs : List (List Nat)) (habsent : s k = none) :
    (s.appendAll k segs).snapshot k = segs.flatten ∧
    ∀ k', k' ≠ k → s.appendAll k segs k' = s k' := by
  constructor
  · rw [ReassemblyStore.appendAll_snapshot]
    simp [ReassemblyStore.snapshot, habsent]
  · intro k' hne
    exact ReassemblyStore.appendAll_other s k segs k' hne

/-- Witness for C9: two segments appended for a fresh flow key snapshot
to their concatenation, and an unrelated key stays absent. -/
theorem claim_C9_reassembly_concat_witness :
    ReassemblyStore.snapshot
        (ReassemblyStore.appendAll (fun _ => none) ((0, 1), (2, 3))
          [[1], [2, 3]]) ((0, 1), (2, 3)) = [1, 2, 3] ∧
    ReassemblyStore.appendAll (fun _ => none) ((0, 1), (2, 3))
        [[1], [2, 3]] ((9, 9), (9, 9)) = none := by
  have h := claim_C9_reassembly_concat (fun _ => none) ((0, 1), (2, 3))
    [[1], [2, 3]] rfl
  exact ⟨h.1.trans rfl, h.2 ((9, 9), (9, 9)) (by decide)⟩

end TheWire
